import Mathlib

/-!
Verification of the supabase client bootstrap module (src/supabaseClient.ts).

The module resolves two configuration strings from environment sources,
validates their shape, constructs a client handle (with placeholder
credentials when invalid), exposes an async connectivity probe, and binds
the handle and probe onto a window-like scope when one exists.

The shallow embedding below models:
  - environment sources as total string maps plus an availability flag
    (an unavailable source stands for a source whose access raises);
  - the probe as a pure function returning its result together with the
    list of queries it issued (the I/O trace);
  - the client library factory as a record constructor.
-/

namespace SupabaseClient

/-- Boolean test that the first list is a prefix of the second
(character-level model of the string startsWith check in the source). -/
def listIsPrefix : List Char → List Char → Bool
  | [], _ => true
  | _ :: _, [] => false
  | a :: as, b :: bs => a == b && listIsPrefix as bs

/-- Boolean test that the pattern occurs as a contiguous sublist
(character-level model of the string includes check in the source). -/
def listContains (pat : List Char) : List Char → Bool
  | [] => listIsPrefix pat []
  | c :: rest => listIsPrefix pat (c :: rest) || listContains pat rest

/-- Model of the JavaScript string method includes: substring containment. -/
def strIncludes (s pat : String) : Bool :=
  listContains pat.toList s.toList

/-- Model of the JavaScript string method startsWith. -/
def strStartsWith (s pat : String) : Bool :=
  listIsPrefix pat.toList s.toList

/-- The runtime environment visible to getEnv.  Each of the two sources
(build-tool injected import.meta.env, process-level process.env) is a total
map from variable names to strings, with the empty string standing for an
undefined variable (both are falsy in JavaScript).  The availability flag
is false when any access to that source raises; the try/catch in the
source swallows that and falls through. -/
structure Env where
  viteOk : Bool
  vite : String → String
  procOk : Bool
  proc : String → String

/-- Embedding of getEnv (src/supabaseClient.ts lines 8-29): return the
import.meta.env value when that source is accessible and the value is
truthy, else the process.env value when accessible and truthy, else the
empty string. -/
def getEnv (e : Env) (key : String) : String :=
  if e.viteOk && (e.vite key != "") then e.vite key
  else if e.procOk && (e.proc key != "") then e.proc key
  else ""

/-- JavaScript logical-or on strings: the first operand when truthy
(non-empty), otherwise the second. -/
def jsOrElse (a b : String) : String :=
  if a != "" then a else b

/-- Embedding of the url resolution (line 32): prefixed name first,
unprefixed fallback second. -/
def supabaseUrl (e : Env) : String :=
  jsOrElse (getEnv e "VITE_SUPABASE_URL") (getEnv e "SUPABASE_URL")

/-- Embedding of the anon key resolution (line 33). -/
def supabaseAnonKey (e : Env) : String :=
  jsOrElse (getEnv e "VITE_SUPABASE_ANON_KEY") (getEnv e "SUPABASE_ANON_KEY")

/-- Embedding of the validity predicate isSupabaseConfigured
(lines 36-43), as a function of the resolved pair. -/
def isSupabaseConfigured (url key : String) : Bool :=
  (url != "") &&
  (key != "") &&
  !(strIncludes url "placeholder") &&
  decide (url.length > 0) &&
  strStartsWith url "https://" &&
  decide (key.length > 20)

/-- The validity flag as computed from the environment at module load. -/
def configuredOfEnv (e : Env) : Bool :=
  isSupabaseConfigured (supabaseUrl e) (supabaseAnonKey e)

/-- Embedding of line 73: the url actually bound into the handle. -/
def clientUrl (url key : String) : String :=
  if isSupabaseConfigured url key then url
  else "https://placeholder-project.supabase.co"

/-- Embedding of line 74: the key actually bound into the handle. -/
def clientKey (url key : String) : String :=
  if isSupabaseConfigured url key then key
  else "placeholder-key"

/-- The opaque client handle: the external library binds it to the pair
it was constructed with. -/
structure SupabaseHandle where
  url : String
  key : String
deriving DecidableEq

/-- The external collaborator createClient(url, key), treated as an opaque
constructor: it records the pair and always succeeds. -/
def createClient (url key : String) : SupabaseHandle :=
  ⟨url, key⟩

/-- Embedding of line 76: the exported handle, as a function of the
resolved pair. -/
def supabase (url key : String) : SupabaseHandle :=
  createClient (clientUrl url key) (clientKey url key)

/-- A read query issued through the handle: from(table).select(columns).limit(n). -/
structure Query where
  table : String
  columns : String
  lim : Nat
deriving DecidableEq

/-- Possible behaviours of the external client on one query: a data
payload, a returned error object carrying a message, or a raised
exception carrying a message. -/
inductive QueryOutcome (α : Type) where
  | ok (data : α)
  | err (message : String)
  | exn (message : String)
deriving DecidableEq

/-- The value returned by the probe.  data and error model optional
fields of the JavaScript result object: none stands for an absent field. -/
structure TestResult (α : Type) where
  success : Bool
  data : Option α
  error : Option String
deriving DecidableEq

/-- The one query the probe issues: from profiles, select all, limit 1. -/
def profilesQuery : Query :=
  ⟨"profiles", "*", 1⟩

/-- Embedding of testSupabaseConnection (lines 79-97).  The client is a
function giving the outcome of each query; the second component of the
result is the list of queries issued (the I/O trace).  The JavaScript
try/catch appears as the exn branch: a raised exception is converted to a
failure result, so the embedded function is total. -/
def testSupabaseConnection {α : Type} (configured : Bool)
    (client : Query → QueryOutcome α) : TestResult α × List Query :=
  if !configured then
    (⟨false, none, some "Not configured"⟩, [])
  else
    match client profilesQuery with
    | .ok d => (⟨true, some d, none⟩, [profilesQuery])
    | .err m => (⟨false, none, some m⟩, [profilesQuery])
    | .exn m => (⟨false, none, some m⟩, [profilesQuery])

/-- Embedding of lines 100-103: when a window-like scope exists (some),
assign the probe under the name testSupabaseConnection and the handle
under the name supabase; when none exists, change nothing.  A scope is an
association list; assignment appends, and lookup takes the latest
binding, matching JavaScript property overwrite. -/
def bindToWindow {α : Type} (probeVal handleVal : α) :
    Option (List (String × α)) → Option (List (String × α))
  | none => none
  | some scope =>
      some (scope ++ [("testSupabaseConnection", probeVal), ("supabase", handleVal)])

/-- Lookup of a property on a window-like scope: the most recent binding
for the name wins. -/
def lookupBinding {α : Type} (scope : List (String × α)) (name : String) : Option α :=
  (scope.reverse.find? (fun p => p.1 == name)).map (fun p => p.2)

/-- Concrete environment where both sources are accessible and both define
the variable K. -/
def envViteW : Env :=
  ⟨true, fun k => if k == "K" then "vite-value" else "",
   true, fun k => if k == "K" then "proc-value" else ""⟩

/-- Concrete environment where the build-tool source leaves K undefined and
the process source defines it. -/
def envProcOnlyW : Env :=
  ⟨true, fun _ => "",
   true, fun k => if k == "K" then "proc-value" else ""⟩

/-- Concrete environment where neither source is accessible. -/
def envNoneW : Env :=
  ⟨false, fun k => if k == "K" then "vite-value" else "",
   false, fun _ => ""⟩

/-- Concrete environment where the prefixed and unprefixed variables are
set to different non-empty values for both logical keys. -/
def envPrecW : Env :=
  ⟨true,
   fun k =>
     if k == "VITE_SUPABASE_URL" then "https://vite.example.co"
     else if k == "VITE_SUPABASE_ANON_KEY" then "vite-key-aaaaaaaaaaaaaaaa" else "",
   true,
   fun k =>
     if k == "SUPABASE_URL" then "https://proc.example.co"
     else if k == "SUPABASE_ANON_KEY" then "proc-key-bbbbbbbbbbbbbbbb" else ""⟩

/-- Concrete environment whose resolved pair equals that of envPrecW but
which reaches it through the unprefixed process-level variables only. -/
def envMirrorW : Env :=
  ⟨false, fun _ => "",
   true,
   fun k =>
     if k == "SUPABASE_URL" then "https://vite.example.co"
     else if k == "SUPABASE_ANON_KEY" then "vite-key-aaaaaaaaaaaaaaaa" else ""⟩

/-- Concrete client that answers every query with a data payload. -/
def clientOkW : Query → QueryOutcome Nat :=
  fun _ => QueryOutcome.ok 0

/-- The boolean prefix test agrees with the mathematical prefix relation. -/
theorem listIsPrefix_iff (p s : List Char) : listIsPrefix p s = true ↔ p <+: s := by
  induction p generalizing s with
  | nil =>
    simp only [listIsPrefix]
    simp
  | cons a as ih =>
    cases s with
    | nil =>
      simp only [listIsPrefix]
      simp
    | cons b bs =>
      simp only [listIsPrefix, Bool.and_eq_true, beq_iff_eq, ih, List.cons_prefix_cons]

/-- The boolean containment test agrees with the mathematical infix relation. -/
theorem listContains_iff (p s : List Char) : listContains p s = true ↔ p <:+: s := by
  induction s with
  | nil =>
    simp only [listContains, listIsPrefix_iff]
    simp
  | cons c rest ih =>
    simp only [listContains, Bool.or_eq_true, listIsPrefix_iff, ih, List.infix_cons_iff]

/-- The string containment model agrees with infix containment of the
character lists. -/
theorem strIncludes_iff (s pat : String) :
    strIncludes s pat = true ↔ pat.toList <:+: s.toList := by
  simp only [strIncludes, listContains_iff]

/-- The string startsWith model agrees with prefix of the character lists. -/
theorem strStartsWith_iff (s pat : String) :
    strStartsWith s pat = true ↔ pat.toList <+: s.toList := by
  simp only [strStartsWith, listIsPrefix_iff]

end SupabaseClient

namespace SupabaseClient

/-- C1: the exported validity flag is true exactly when the resolved url is
non-empty, the resolved key is non-empty, the url does not contain the
substring placeholder, the url has positive length, the url starts with
the scheme prefix, and the key is strictly longer than 20 characters. -/
theorem C1_validity_flag_iff (url key : String) :
    isSupabaseConfigured url key = true ↔
      (url ≠ "" ∧ key ≠ "" ∧ ¬ (String.toList "placeholder" <:+: url.toList) ∧
       url.length > 0 ∧ String.toList "https://" <+: url.toList ∧ key.length > 20) := by
  simp only [isSupabaseConfigured, Bool.and_eq_true, bne_iff_ne, ne_eq,
    Bool.not_eq_true', Bool.eq_false_iff, decide_eq_true_eq,
    strIncludes_iff, strStartsWith_iff, and_assoc]

/-- C2: when the validity flag is false, the probe returns exactly the
failure result with error message Not configured and issues no query. -/
theorem C2_probe_unconfigured {α : Type} (client : Query → QueryOutcome α) :
    testSupabaseConnection false client =
      (⟨false, none, some "Not configured"⟩, []) := rfl

/-- C3: the client factory is total and never fails; with a valid
configuration the handle is built from the real resolved pair, otherwise
from the two fixed placeholder literals. -/
theorem C3_factory (url key : String) :
    supabase url key =
      if isSupabaseConfigured url key then createClient url key
      else createClient "https://placeholder-project.supabase.co" "placeholder-key" := by
  unfold supabase clientUrl clientKey createClient
  cases h : isSupabaseConfigured url key <;> simp [h]

/-- C4: when the validity flag is true the probe issues exactly one query,
from the profiles collection selecting all columns limited to one record;
its result is success with the data on an ok outcome, and a failure
carrying the message on a returned error object or a raised exception, so
no exception escapes the probe. -/
theorem C4_probe_configured {α : Type} (client : Query → QueryOutcome α) :
    (testSupabaseConnection true client).2 = [⟨"profiles", "*", 1⟩] ∧
    (testSupabaseConnection true client).1 =
      (match client profilesQuery with
       | .ok d => ⟨true, some d, none⟩
       | .err m => ⟨false, none, some m⟩
       | .exn m => ⟨false, none, some m⟩) := by
  unfold testSupabaseConnection profilesQuery
  cases client ⟨"profiles", "*", 1⟩ <;> simp [profilesQuery]

/-- C5: for every variable name, getEnv returns the build-tool-injected
value when that source is accessible and defines it non-empty, otherwise
the process-level value when accessible and non-empty, otherwise the
empty string; it is total, and an inaccessible source behaves exactly as
a source defining nothing. -/
theorem C5_getEnv_resolution (e : Env) (k : String) :
    (e.viteOk = true → e.vite k ≠ "" → getEnv e k = e.vite k) ∧
    ((e.viteOk = false ∨ e.vite k = "") → e.procOk = true → e.proc k ≠ "" →
       getEnv e k = e.proc k) ∧
    ((e.viteOk = false ∨ e.vite k = "") → (e.procOk = false ∨ e.proc k = "") →
       getEnv e k = "") ∧
    getEnv ⟨false, e.vite, e.procOk, e.proc⟩ k = getEnv ⟨true, fun _ => "", e.procOk, e.proc⟩ k := by
  refine ⟨?_, ?_, ?_, ?_⟩
  · intro h1 h2
    simp [getEnv, h1, h2]
  · rintro (h | h) h2 h3 <;> simp [getEnv, h, h2, h3]
  · rintro (h | h) (h2 | h2) <;> simp [getEnv, h, h2]
  · simp [getEnv]

/-- C5 witness: concrete environments exercising the build-tool branch,
the process fallback branch, and the all-sources-inaccessible branch. -/
theorem C5_getEnv_resolution_witness :
    getEnv envViteW "K" = "vite-value" ∧
    getEnv envProcOnlyW "K" = "proc-value" ∧
    getEnv envNoneW "K" = "" :=
  ⟨(C5_getEnv_resolution envViteW "K").1 rfl (by decide),
   (C5_getEnv_resolution envProcOnlyW "K").2.1 (Or.inr rfl) rfl (by decide),
   (C5_getEnv_resolution envNoneW "K").2.2.1 (Or.inl rfl) (Or.inl rfl)⟩

/-- C6: for each logical key the prefixed variable name is checked first
and the unprefixed fallback second, the first non-empty value winning; in
particular whenever the prefixed name resolves non-empty its value is the
one used. -/
theorem C6_resolver_precedence (e : Env) :
    (getEnv e "VITE_SUPABASE_URL" ≠ "" →
       supabaseUrl e = getEnv e "VITE_SUPABASE_URL") ∧
    (getEnv e "VITE_SUPABASE_URL" = "" →
       supabaseUrl e = getEnv e "SUPABASE_URL") ∧
    (getEnv e "VITE_SUPABASE_ANON_KEY" ≠ "" →
       supabaseAnonKey e = getEnv e "VITE_SUPABASE_ANON_KEY") ∧
    (getEnv e "VITE_SUPABASE_ANON_KEY" = "" →
       supabaseAnonKey e = getEnv e "SUPABASE_ANON_KEY") := by
  refine ⟨?_, ?_, ?_, ?_⟩ <;> intro h <;>
    simp [supabaseUrl, supabaseAnonKey, jsOrElse, h]

/-- C6 witness: in an environment where the prefixed and unprefixed
variables hold different non-empty values, the prefixed value wins for
both logical keys; in one where the prefixed names are empty, the
unprefixed fallback is used. -/
theorem C6_resolver_precedence_witness :
    supabaseUrl envPrecW = "https://vite.example.co" ∧
    supabaseAnonKey envPrecW = "vite-key-aaaaaaaaaaaaaaaa" ∧
    getEnv envPrecW "SUPABASE_URL" = "https://proc.example.co" ∧
    supabaseUrl envMirrorW = "https://vite.example.co" ∧
    supabaseAnonKey envMirrorW = "vite-key-aaaaaaaaaaaaaaaa" :=
  ⟨(C6_resolver_precedence envPrecW).1 (by decide),
   (C6_resolver_precedence envPrecW).2.2.1 (by decide),
   by decide,
   (C6_resolver_precedence envMirrorW).2.1 (by decide),
   (C6_resolver_precedence envMirrorW).2.2.2 (by decide)⟩

/-- C7: the validity flag is a pure function of the two resolved strings:
any two environments resolving to the same pair yield the same flag. -/
theorem C7_validity_pure (e1 e2 : Env)
    (hu : supabaseUrl e1 = supabaseUrl e2)
    (hk : supabaseAnonKey e1 = supabaseAnonKey e2) :
    configuredOfEnv e1 = configuredOfEnv e2 := by
  unfold configuredOfEnv
  rw [hu, hk]

/-- C7 witness: two environments with different presence combinations
(prefixed build-tool variables versus unprefixed process variables) that
resolve to the same pair get the same validity flag. -/
theorem C7_validity_pure_witness :
    configuredOfEnv envPrecW = configuredOfEnv envMirrorW :=
  C7_validity_pure envPrecW envMirrorW (by decide) (by decide)

/-- C8: when a window-like scope exists at module load, the probe and the
handle are bound onto it under the fixed names testSupabaseConnection and
supabase; when no scope exists, nothing is bound. -/
theorem C8_window_binding {α : Type} (probeVal handleVal : α)
    (scope : List (String × α)) :
    bindToWindow probeVal handleVal none = none ∧
    ∃ s2, bindToWindow probeVal handleVal (some scope) = some s2 ∧
      lookupBinding s2 "supabase" = some handleVal ∧
      lookupBinding s2 "testSupabaseConnection" = some probeVal := by
  refine ⟨rfl,
    scope ++ [("testSupabaseConnection", probeVal), ("supabase", handleVal)],
    rfl, ?_, ?_⟩ <;>
  simp [lookupBinding, List.reverse_append]

/-- C9: the url actually bound into the handle always starts with the
https scheme, and the validity flag is false exactly when that bound url
contains the substring placeholder, so the configuration state is
recoverable from the handle url alone. -/
theorem C9_handle_url_invariant (url key : String) :
    strStartsWith (clientUrl url key) "https://" = true ∧
    (isSupabaseConfigured url key = false ↔
      strIncludes (clientUrl url key) "placeholder" = true) := by
  cases h : isSupabaseConfigured url key with
  | false =>
    refine ⟨?_, ?_⟩
    · simp only [clientUrl, h, Bool.false_eq_true, if_false]
      rfl
    · simp only [clientUrl, h, Bool.false_eq_true, if_false]
      constructor
      · intro _
        rfl
      · intro _
        trivial
  | true =>
    have h' := h
    simp only [isSupabaseConfigured, Bool.and_eq_true, and_assoc] at h'
    obtain ⟨h1, h2, h3, h4, h5, h6⟩ := h'
    have hinc : strIncludes url "placeholder" = false := by
      simpa using h3
    refine ⟨?_, ?_⟩
    · simpa [clientUrl, h] using h5
    · simp [clientUrl, h, hinc]

/-- C10: every probe result has a boolean success field; a success result
carries data, no error, and occurs only when the flag is true; a failure
result carries no data and an error message that is either the fixed
string Not configured or the message of the error object or exception
produced by the one query. -/
theorem C10_result_shape {α : Type} (configured : Bool)
    (client : Query → QueryOutcome α) :
    ((testSupabaseConnection configured client).1.success = true →
       ((testSupabaseConnection configured client).1.data.isSome = true ∧
        (testSupabaseConnection configured client).1.error = none ∧
        configured = true)) ∧
    ((testSupabaseConnection configured client).1.success = false →
       ((testSupabaseConnection configured client).1.data = none ∧
        ∃ m, (testSupabaseConnection configured client).1.error = some m ∧
          (m = "Not configured" ∨ client profilesQuery = .err m ∨
           client profilesQuery = .exn m))) := by
  cases configured with
  | false => simp [testSupabaseConnection]
  | true =>
    cases h : client profilesQuery <;> simp [testSupabaseConnection, h]

/-- C10 witness: the success shape at a configured run with a data-bearing
client, and the failure shape at an unconfigured run. -/
theorem C10_result_shape_witness :
    ((testSupabaseConnection true clientOkW).1.data.isSome = true ∧
     (testSupabaseConnection true clientOkW).1.error = none ∧
     true = true) ∧
    ((testSupabaseConnection false clientOkW).1.data = none ∧
     ∃ m, (testSupabaseConnection false clientOkW).1.error = some m ∧
       (m = "Not configured" ∨ clientOkW profilesQuery = .err m ∨
        clientOkW profilesQuery = .exn m)) :=
  ⟨(C10_result_shape true clientOkW).1 rfl,
   (C10_result_shape false clientOkW).2 rfl⟩

end SupabaseClient
